import Mathlib

/-!
Verification of the supermarket-list bot core
(`bot_lista_supermercado.py`, `keyboard.py`).

The shallow embedding models the per-user state as an explicit value that
every operation takes and returns (the Python code mutates `EstadoUsuario`
in place).  Python's insertion-ordered `dict` is modelled as an association
list with unique keys under reachable states: membership test walks the
list, insertion of a fresh key appends at the end, updating an existing key
rewrites its entry in place, and `del` removes the key's entry.  Monetary
values (`float` in the source, produced by parsing decimal literals such as
`4.50` or `10,00`) are modelled as rationals; every value the claims touch
is exactly representable in binary floating point, so the rational model
agrees with the source on them.
-/

/-- One list entry (`ItemLista` in the source): display name, whether it is
already in the cart, and the optional shelf price. -/
structure ItemLista where
  nome : String
  em_carrinho : Bool := false
  preco : Option ℚ := none
  deriving DecidableEq, Repr

/-- Per-user session state (`EstadoUsuario`): the item map (association
list keyed by the normalized name) and the shopping-mode flag. -/
structure EstadoUsuario where
  itens : List (String × ItemLista)
  modo_compras : Bool := false
  deriving DecidableEq, Repr

/-- Python `nome in estado.itens` / `estado.itens[nome]`: first (only, under
unique keys) binding of the key in the association list. -/
def dictGet (chave : String) : List (String × ItemLista) → Option ItemLista
  | [] => none
  | par :: resto => if par.1 = chave then some par.2 else dictGet chave resto

/-- `adicionar_item` (source lines 90-99): trim+lowercase the name, refuse a
blank name, refuse a duplicate key (echoing the original-case name), else
insert a fresh item with the defaults `em_carrinho = false`, `preco = none`.
Returns the new state and the reply text. -/
def adicionar_item (estado : EstadoUsuario) (nome_item : String) :
    EstadoUsuario × String :=
  let nome := nome_item.trim.toLower
  if nome = "" then
    (estado, "Você precisa informar o nome do item para adicionar.")
  else
    match dictGet nome estado.itens with
    | some _ => (estado, "'" ++ nome_item ++ "' já está na lista.")
    | none =>
        ({ estado with itens := estado.itens ++ [(nome, ⟨nome, false, none⟩)] },
         "Item '" ++ nome_item ++ "' adicionado à lista.")

/-- `remover_item` (source lines 102-111): trim+lowercase, refuse blank,
refuse an absent key, else delete the binding. -/
def remover_item (estado : EstadoUsuario) (nome_item : String) :
    EstadoUsuario × String :=
  let nome := nome_item.trim.toLower
  if nome = "" then
    (estado, "Você precisa informar o nome do item para remover.")
  else
    match dictGet nome estado.itens with
    | none => (estado, "Item '" ++ nome_item ++ "' não está na lista.")
    | some _ =>
        ({ estado with itens := estado.itens.filter (fun par => par.1 != nome) },
         "Item '" ++ nome_item ++ "' removido da lista.")

/-- The running-total loop of `marcar_item_comprado` (source lines 203-207):
sum of `preco` over the entries with `em_carrinho` true and a non-null
price. -/
def somaCarrinho : List (String × ItemLista) → ℚ
  | [] => 0
  | par :: resto =>
      (if par.2.em_carrinho then (par.2.preco.getD 0) else 0) + somaCarrinho resto

/-- Given the reversed, trailing-whitespace-stripped character list of the
utterance, build (`texto[:match.start()]`, matched numeric group) for the
regex `(\d+[.,]\d+|\d+)\s*$` of source line 161.  The group is the maximal
trailing digit run, extended through one `.` or `,` separator to the digit
run before it when that run is non-empty. -/
def montaAntesGrupo (rev : List Char) : String × String :=
  let d2 := rev.takeWhile Char.isDigit
  let resto := rev.dropWhile Char.isDigit
  match resto with
  | [] => ("", ⟨d2.reverse⟩)
  | sep :: resto2 =>
      if sep = '.' ∨ sep = ',' then
        let d1 := resto2.takeWhile Char.isDigit
        if d1 = [] then (⟨resto.reverse⟩, ⟨d2.reverse⟩)
        else
          (⟨(resto2.dropWhile Char.isDigit).reverse⟩,
           ⟨d1.reverse ++ sep :: d2.reverse⟩)
      else (⟨resto.reverse⟩, ⟨d2.reverse⟩)

/-- `re.search(r"(\d+[.,]\d+|\d+)\s*$", texto)` of source line 161: `none`
when no numeric token ends the string, otherwise the text before the match
and the matched group.  The pattern is anchored at the end of the string
(through optional trailing whitespace), so a match exists iff the string
ends with a digit after trailing whitespace is dropped; the leftmost match
is the maximal trailing numeric token. -/
def buscarPreco (texto : String) : Option (String × String) :=
  let rev := texto.data.reverse.dropWhile Char.isWhitespace
  if rev.takeWhile Char.isDigit = [] then none
  else some (montaAntesGrupo rev)

/-- Numeric value of a digit string, most significant digit first. -/
def valorDigitos (l : List Char) : ℕ :=
  l.foldl (fun acc c => 10 * acc + (c.toNat - 48)) 0

/-- Python `float(preco_str)` restricted to the decimal shapes the regex can
produce (`digits` or `digits.digits`); any other shape is rejected, which
models the defensive `ValueError` branch of source lines 169-172. -/
def parseDecimal (s : String) : Option ℚ :=
  match s.splitOn "." with
  | [a] =>
      if a.length ≠ 0 ∧ a.data.all Char.isDigit then
        some ((valorDigitos a.data : ℚ))
      else none
  | [a, b] =>
      if a.length ≠ 0 ∧ b.length ≠ 0 ∧
          a.data.all Char.isDigit ∧ b.data.all Char.isDigit then
        some ((valorDigitos a.data : ℚ) +
          (valorDigitos b.data : ℚ) / (10 : ℚ) ^ b.length)
      else none
  | _ => none

/-- The action-word list of source line 178, in source order ("peguei"
stands before "peguei o"). -/
def palavrasAcao : List String :=
  ["peguei", "peguei o", "peguei a", "marcar", "marquei",
   "coloquei", "coloquei o", "coloquei a"]

/-- The prefix-stripping loop of source lines 178-181: remove the first
matching action word (the loop breaks after one removal) and strip. -/
def removerPalavrasAcao (s : String) : String :=
  match palavrasAcao.find? (fun p => s.startsWith p) with
  | some p => (s.drop p.length).trim
  | none => s

def msgSemPreco : String :=
  "Não encontrei o preço na mensagem. Exemplo: 'peguei leite por 4.50'."

def msgConverter : String :=
  "Não consegui converter o preço. Tente dizer algo como '4.50' ou '4,50'."

def msgSemItem : String :=
  "Não entendi qual item você pegou. Exemplo: 'peguei leite por 4.50'."

/-- The steps of source lines 168-188 once the regex has matched: normalize
`,` to `.` and parse the group, then lowercase and strip the text before
the match, drop one leading action word and refuse a blank residual
name. -/
def extrairAposBusca (antes grupo : String) : Except String (String × ℚ) :=
  match parseDecimal (grupo.replace "," ".") with
  | none => Except.error msgConverter
  | some preco =>
      if (removerPalavrasAcao (antes.trim.toLower)).trim = "" then
        Except.error msgSemItem
      else Except.ok ((removerPalavrasAcao (antes.trim.toLower)).trim, preco)

/-- The extraction phase of `marcar_item_comprado` (source lines 159-188):
find the trailing numeric token, then parse it and the residual item
name. -/
def extrairItemPreco (texto : String) : Except String (String × ℚ) :=
  match buscarPreco texto with
  | none => Except.error msgSemPreco
  | some (antes, grupo) => extrairAposBusca antes grupo

/-- Floor of a rational, computed on the numerator and denominator. -/
def pisoRacional (q : ℚ) : ℤ :=
  q.num.fdiv (q.den : ℤ)

/-- Python `f"{q:.2f}"` for the non-negative amounts this program prints:
round to whole cents, then render with `.` and exactly two decimal
digits. -/
def doisDecimais (q : ℚ) : String :=
  let c := (pisoRacional (100 * q + 1 / 2)).toNat
  let resto := c % 100
  toString (c / 100) ++ "." ++
    (if resto < 10 then "0" ++ toString resto else toString resto)

/-- `marcar_item_comprado` (source lines 154-209): run the extractor,
return its guidance message unchanged on failure; otherwise insert the item
as already in the cart when its key is absent, or mark the existing entry
and overwrite its price, then report the price and the running total. -/
def marcar_item_comprado (estado : EstadoUsuario) (texto : String) :
    EstadoUsuario × String :=
  match extrairItemPreco texto with
  | Except.error msg => (estado, msg)
  | Except.ok (nome_item, preco) =>
      let nome_chave := nome_item.toLower
      match dictGet nome_chave estado.itens with
      | none =>
          let novos := estado.itens ++ [(nome_chave, ⟨nome_item, true, some preco⟩)]
          ({ estado with itens := novos },
           "Item '" ++ nome_item ++ "' não estava na lista, mas foi adicionado" ++
             " com preço R$ " ++ doisDecimais preco ++
             ".\n💰 Total parcial: R$ " ++ doisDecimais (somaCarrinho novos))
      | some _ =>
          let novos := estado.itens.map (fun par =>
            if par.1 = nome_chave then (par.1, ⟨par.2.nome, true, some preco⟩)
            else par)
          ({ estado with itens := novos },
           "Item '" ++ nome_item ++ "' marcado como no carrinho" ++
             " com preço R$ " ++ doisDecimais preco ++
             ".\n💰 Total parcial: R$ " ++ doisDecimais (somaCarrinho novos))

/-! ## Intent resolver (the button-and-pending-action variant)

The repository's `keyboard.py` declares the button tokens below, but the
handler that consumes them (session `pending_action`, the precedence
cascade of spec section 4.3) is not among the repository's source files;
only the token declarations are.  The resolver is therefore modelled from
the spec and settled against that model. -/

/-- Button token from `keyboard.py` line 6. -/
def BOTAO_LISTAR : String := "📝 Ver Lista"

/-- Button token from `keyboard.py` line 7. -/
def BOTAO_ADICIONAR : String := "➕ Adicionar"

/-- Button token from `keyboard.py` line 8. -/
def BOTAO_REMOVER : String := "➖ Remover"

/-- Button token from `keyboard.py` line 10. -/
def BOTAO_MODO_COMPRAS : String := "🛒 Iniciar Compras"

/-- Button token from `keyboard.py` line 11. -/
def BOTAO_SAIR_COMPRAS : String := "🏠 Voltar ao Menu"

/-- Button token from `keyboard.py` line 12. -/
def BOTAO_AJUDA : String := "❓ Ajuda"

/-- Button token from `keyboard.py` line 13. -/
def BOTAO_CANCELAR : String := "❌ Cancelar Ação"

/-- Modelled from the spec: the `pending_action` enum of spec section 3
(`adding`, `removing`); the enum itself is declared in no repository source
file. -/
inductive AcaoPendente where
  | adicionando
  | removendo
  deriving DecidableEq, Repr

/-- Modelled from the spec: the session of spec section 3 for the resolver
variant (items, shopping-mode flag, optional pending action); the variant
carrying `pending_action` is in no repository source file. -/
structure Sessao where
  itens : List (String × ItemLista)
  modo_compras : Bool
  acao_pendente : Option AcaoPendente
  deriving DecidableEq, Repr

/-- Modelled from the spec: the Intent variants of spec section 3. -/
inductive Intent where
  | CancelPending
  | ShowList
  | ShowHelp
  | EnterShoppingMode
  | ExitShoppingMode
  | BeginAdd
  | BeginRemove
  | CompleteAdd (nome : String)
  | CompleteRemove (nome : String)
  | MarkPurchased (texto : String)
  | AddDirect (nome : String)
  | RemoveDirect (nome : String)
  | Unrecognized
  deriving DecidableEq, Repr

/-- True when `sub` occurs somewhere inside `alvo` (Python `sub in alvo`). -/
def contemSub (alvo sub : String) : Bool :=
  decide (1 < (alvo.splitOn sub).length)

/-- Everything after the first whitespace-separated word (Python
`texto.split(maxsplit=1)[1]`, used for the direct add/remove remainder). -/
def aposPrimeiraPalavra (t : String) : String :=
  match t.trim.splitOn " " with
  | [] => ""
  | _ :: resto => (String.intercalate " " resto).trim

/-- Modelled from the spec: rules 9-14 of the precedence cascade of spec
section 4.3 (the free-text heuristics, reached when no exact token matched
and no pending action captured the utterance). -/
def resolveSemPendente (texto : String) (s : Sessao) : Intent × Sessao :=
  let low := texto.toLower
  if contemSub low "fazendo compras" ∨ contemSub low "modo compras" then
    (Intent.EnterShoppingMode, { s with modo_compras := true })
  else if s.modo_compras ∧
      (low.startsWith "peguei" ∨ low.startsWith "marcar" ∨
       low.startsWith "marquei" ∨ low.startsWith "coloquei") then
    (Intent.MarkPurchased texto, s)
  else if low.startsWith "adicionar " ∨ low.startsWith "adiciona " then
    (Intent.AddDirect (aposPrimeiraPalavra texto), s)
  else if low.startsWith "remover " ∨ low.startsWith "remove " ∨
      low.startsWith "tirar " then
    (Intent.RemoveDirect (aposPrimeiraPalavra texto), s)
  else if contemSub low "listar" ∨ contemSub low "mostrar lista" ∨
      contemSub low "ver lista" then
    (Intent.ShowList, s)
  else (Intent.Unrecognized, s)

/-- Modelled from the spec: the full precedence cascade of spec section 4.3
(exact button tokens first, then pending-action continuation with the
menu-token guard of rule 8, then the free-text rules). -/
def resolve (texto : String) (s : Sessao) : Intent × Sessao :=
  if texto = BOTAO_CANCELAR then
    (Intent.CancelPending, { s with acao_pendente := none })
  else if texto = BOTAO_LISTAR then
    (Intent.ShowList, { s with acao_pendente := none })
  else if texto = BOTAO_AJUDA then
    (Intent.ShowHelp, s)
  else if texto = BOTAO_MODO_COMPRAS then
    (Intent.EnterShoppingMode, { s with modo_compras := true })
  else if texto = BOTAO_SAIR_COMPRAS then
    (Intent.ExitShoppingMode, { s with modo_compras := false })
  else if texto = BOTAO_ADICIONAR then
    (Intent.BeginAdd, { s with acao_pendente := some AcaoPendente.adicionando })
  else if texto = BOTAO_REMOVER then
    (Intent.BeginRemove, { s with acao_pendente := some AcaoPendente.removendo })
  else
    match s.acao_pendente with
    | some pendente =>
        if texto = BOTAO_LISTAR ∨ texto = BOTAO_MODO_COMPRAS ∨
            texto = BOTAO_SAIR_COMPRAS ∨ texto = BOTAO_AJUDA then
          resolveSemPendente texto { s with acao_pendente := none }
        else
          match pendente with
          | AcaoPendente.adicionando =>
              (Intent.CompleteAdd texto, { s with acao_pendente := none })
          | AcaoPendente.removendo =>
              (Intent.CompleteRemove texto, { s with acao_pendente := none })
    | none => resolveSemPendente texto s

/-! ## Helper lemmas about the dictionary model and the extractor -/

/-- Appending a fresh key at the end makes it visible to lookup. -/
theorem dictGet_append_self (l : List (String × ItemLista)) (k : String)
    (v : ItemLista) (h : dictGet k l = none) :
    dictGet k (l ++ [(k, v)]) = some v := by
  induction l with
  | nil => simp [dictGet]
  | cons par resto ih =>
      by_cases hp : par.1 = k
      · simp [dictGet, hp] at h
      · simp only [dictGet, hp, if_false] at h
        simpa [dictGet, hp] using ih h

/-- Deleting an absent key is the identity. -/
theorem filter_sem_chave (l : List (String × ItemLista)) (k : String)
    (h : dictGet k l = none) :
    l.filter (fun par => par.1 != k) = l := by
  induction l with
  | nil => rfl
  | cons par resto ih =>
      by_cases hp : par.1 = k
      · simp [dictGet, hp] at h
      · simp only [dictGet, hp, if_false] at h
        simp [List.filter_cons, bne_iff_ne, hp, ih h]

/-- Updating the entries of an absent key is the identity. -/
theorem map_sem_chave (l : List (String × ItemLista)) (k : String)
    (g : String × ItemLista → String × ItemLista) (h : dictGet k l = none) :
    (l.map fun par => if par.1 = k then g par else par) = l := by
  induction l with
  | nil => rfl
  | cons par resto ih =>
      by_cases hp : par.1 = k
      · simp [dictGet, hp] at h
      · simp only [dictGet, hp, if_false] at h
        simp [hp, ih h]

/-- The cart total distributes over list concatenation. -/
theorem somaCarrinho_append (l l' : List (String × ItemLista)) :
    somaCarrinho (l ++ l') = somaCarrinho l + somaCarrinho l' := by
  induction l with
  | nil => simp [somaCarrinho]
  | cons par resto ih =>
      simp only [List.cons_append, somaCarrinho, List.append_eq, ih]
      ring

/-- Whether the utterance still ends in a digit once trailing whitespace is
discarded: the condition under which the price regex of source line 161 can
match at all. -/
def terminaEmDigito (texto : String) : Bool :=
  match texto.data.reverse.dropWhile Char.isWhitespace with
  | [] => false
  | c :: _ => c.isDigit

/-- The regex search fails exactly when the utterance does not end in a
digit (after trailing whitespace). -/
theorem buscarPreco_none_iff (texto : String) :
    buscarPreco texto = none ↔ terminaEmDigito texto = false := by
  unfold buscarPreco terminaEmDigito
  cases h : texto.data.reverse.dropWhile Char.isWhitespace with
  | nil => simp
  | cons c resto =>
      cases hc : c.isDigit with
      | false => simp [List.takeWhile_cons, hc]
      | true => simp [List.takeWhile_cons, hc]

/-- The post-regex phase never produces the missing-price message (its two
failure messages are different strings). -/
theorem extrairAposBusca_ne (antes grupo : String) :
    extrairAposBusca antes grupo ≠ Except.error msgSemPreco := by
  unfold extrairAposBusca
  generalize parseDecimal (grupo.replace "," ".") = o
  cases o with
  | none =>
      dsimp only
      intro h
      injection h with h2
      exact absurd h2 (by decide)
  | some preco =>
      dsimp only
      split
      · intro h
        injection h with h2
        exact absurd h2 (by decide)
      · intro h
        cases h

/-- If the extractor reports the missing-price message, the regex search
found nothing. -/
theorem extrair_erro_semPreco (texto : String)
    (h : extrairItemPreco texto = Except.error msgSemPreco) :
    buscarPreco texto = none := by
  cases hb : buscarPreco texto with
  | none => rfl
  | some par =>
      obtain ⟨antes, grupo⟩ := par
      unfold extrairItemPreco at h
      rw [hb] at h
      exact absurd h (extrairAposBusca_ne antes grupo)

/-! ## Claims -/

/-- Claim C1 (amended): the extractor yields ("arroz", 10.00) for
"peguei arroz 10,00", but for "peguei leite por 4.50" it yields
("leite por", 4.50) and for "comprei o pão francês custou 6" it yields
("comprei o pão francês custou", 6.00): no trailing filler suffix is
stripped, and "comprei" is not in the leading action-word list. -/
theorem C1_extrator_valores :
    extrairItemPreco "peguei leite por 4.50" =
      Except.ok ("leite por", (9 : ℚ)/2) ∧
    extrairItemPreco "peguei arroz 10,00" = Except.ok ("arroz", (10 : ℚ)) ∧
    extrairItemPreco "comprei o pão francês custou 6" =
      Except.ok ("comprei o pão francês custou", (6 : ℚ)) :=
  ⟨by with_unfolding_all rfl, by with_unfolding_all rfl, by with_unfolding_all rfl⟩

/-- Claim C1, counterexample: on "peguei leite por 4.50" the extractor
returns the item name "leite por", not the "leite" the spec claims — the
trailing " por" is not stripped. -/
theorem C1_contraexemplo :
    extrairItemPreco "peguei leite por 4.50" =
      Except.ok ("leite por", (9 : ℚ)/2) ∧ ("leite por" : String) ≠ "leite" :=
  ⟨by with_unfolding_all rfl, by decide⟩

/-- Claim C2 (spec-modelled resolver): with a pending add action, the exact
show-list button token resolves to ShowList — not to CompleteAdd of the
token — and the pending action is cleared. -/
theorem C2_token_ver_lista (s : Sessao)
    (_h : s.acao_pendente = some AcaoPendente.adicionando) :
    resolve BOTAO_LISTAR s = (Intent.ShowList, { s with acao_pendente := none }) := by
  unfold resolve
  rw [if_neg (by decide), if_pos rfl]

/-- Claim C2, witness: a concrete session with a pending add. -/
theorem C2_token_ver_lista_witness :
    resolve BOTAO_LISTAR ⟨[], false, some AcaoPendente.adicionando⟩ =
      (Intent.ShowList, ⟨[], false, none⟩) :=
  C2_token_ver_lista ⟨[], false, some AcaoPendente.adicionando⟩ rfl

/-- Claim C3 (amended): the amount extraction fails with the NoAmountFound
guidance message iff the utterance does not end (after trailing whitespace)
in a digit: the regex of the source is anchored at the end of the string,
so a numeric token elsewhere in the utterance does not prevent the
failure. -/
theorem C3_sem_preco_iff (texto : String) :
    (extrairItemPreco texto = Except.error msgSemPreco) ↔
      terminaEmDigito texto = false := by
  constructor
  · intro h
    exact (buscarPreco_none_iff texto).mp (extrair_erro_semPreco texto h)
  · intro h
    have hb : buscarPreco texto = none := (buscarPreco_none_iff texto).mpr h
    unfold extrairItemPreco
    rw [hb]

/-- Claim C3, counterexample: "peguei 5 reais de leite" contains the
numeric token "5", yet the extraction fails with the NoAmountFound message
because the token does not stand at the end of the utterance. -/
theorem C3_contraexemplo :
    extrairItemPreco "peguei 5 reais de leite" = Except.error msgSemPreco ∧
    contemSub "peguei 5 reais de leite" "5" = true :=
  ⟨by with_unfolding_all rfl, by with_unfolding_all rfl⟩

/-- Claim C4 (code-bug evaluation): the action-word list tries "peguei"
before "peguei o", so on "peguei o leite 4.50" the residual item name is
"o leite", not the "leite" the spec requires of a longest-prefix-first
order. -/
theorem C4_avaliacao :
    extrairItemPreco "peguei o leite 4.50" =
      Except.ok ("o leite", (9 : ℚ)/2) := by
  with_unfolding_all rfl

/-- Claim C5, counterexample: on a session already holding "leite", Add of
"leite" fails as a duplicate (changing nothing) but the following Remove
deletes the pre-existing item, so the pair of calls does not restore the
prior state. -/
theorem C5_contraexemplo :
    ((remover_item
        (adicionar_item ⟨[("leite", ⟨"leite", false, none⟩)], false⟩ "leite").1
        "leite").1).itens = [] ∧
    ([("leite", (⟨"leite", false, none⟩ : ItemLista))] :
        List (String × ItemLista)) ≠ [] :=
  ⟨by with_unfolding_all rfl, by decide⟩

/-- Claim C5 (amended): for every session whose item map does not already
contain the normalized key of n, Add of n followed by Remove of n restores
the session exactly (this also covers blank names, whose two calls are
no-ops). -/
theorem C5_ida_volta (estado : EstadoUsuario) (n : String)
    (h : dictGet (n.trim.toLower) estado.itens = none) :
    (remover_item (adicionar_item estado n).1 n).1 = estado := by
  by_cases hn : n.trim.toLower = ""
  · simp [adicionar_item, remover_item, hn]
  · have hadd : (adicionar_item estado n).1 =
        { estado with itens := estado.itens ++
            [(n.trim.toLower, ⟨n.trim.toLower, false, none⟩)] } := by
      simp [adicionar_item, hn, h]
    rw [hadd]
    have hg := dictGet_append_self estado.itens (n.trim.toLower)
      ⟨n.trim.toLower, false, none⟩ h
    simp [remover_item, hn, hg, List.filter_append, filter_sem_chave _ _ h]

/-- Claim C5, witness: adding then removing "leite" on the empty session
returns to the empty session. -/
theorem C5_ida_volta_witness :
    (remover_item (adicionar_item ⟨[], false⟩ "leite").1 "leite").1 =
      (⟨[], false⟩ : EstadoUsuario) :=
  C5_ida_volta ⟨[], false⟩ "leite" rfl

/-- Claim C6: for a non-blank name whose key is not yet present, the first
Add inserts the item with the defaults in_cart false and null price, and
the second Add fails with the duplicate message (echoing the name as
typed) leaving the session untouched. -/
theorem C6_duplicado (estado : EstadoUsuario) (n : String)
    (h1 : n.trim.toLower ≠ "") (h2 : dictGet (n.trim.toLower) estado.itens = none) :
    adicionar_item estado n =
      ({ estado with itens := estado.itens ++
          [(n.trim.toLower, ⟨n.trim.toLower, false, none⟩)] },
       "Item '" ++ n ++ "' adicionado à lista.") ∧
    adicionar_item (adicionar_item estado n).1 n =
      ((adicionar_item estado n).1, "'" ++ n ++ "' já está na lista.") := by
  have hfst : adicionar_item estado n =
      ({ estado with itens := estado.itens ++
          [(n.trim.toLower, ⟨n.trim.toLower, false, none⟩)] },
       "Item '" ++ n ++ "' adicionado à lista.") := by
    simp [adicionar_item, h1, h2]
  refine ⟨hfst, ?_⟩
  have hg := dictGet_append_self estado.itens (n.trim.toLower)
    ⟨n.trim.toLower, false, none⟩ h2
  rw [hfst]
  simp [adicionar_item, h1, hg]

/-- Claim C6, witness: adding "leite" twice to the empty session. -/
theorem C6_duplicado_witness :
    adicionar_item ⟨[], false⟩ "leite" =
      (⟨[("leite", ⟨"leite", false, none⟩)], false⟩,
       "Item 'leite' adicionado à lista.") ∧
    adicionar_item (adicionar_item ⟨[], false⟩ "leite").1 "leite" =
      ((adicionar_item ⟨[], false⟩ "leite").1, "'leite' já está na lista.") := by
  with_unfolding_all exact C6_duplicado ⟨[], false⟩ "leite" (by decide) rfl

set_option maxHeartbeats 1000000 in
/-- Claim C7: MarkPurchased on an utterance whose extracted name is absent
inserts the item with in_cart true and the extracted price, and reports the
running total, which is the sum of the prices of the in-cart items with a
known price, rendered with a dot and two decimal digits; concretely,
marking leite at 4.50 and then arroz at 10,00 reports total 14.50. -/
theorem C7_marcar_total :
    (∀ (estado : EstadoUsuario) (texto nome : String) (preco : ℚ),
        extrairItemPreco texto = Except.ok (nome, preco) →
        dictGet nome.toLower estado.itens = none →
        marcar_item_comprado estado texto =
          ({ estado with itens := estado.itens ++
              [(nome.toLower, ⟨nome, true, some preco⟩)] },
           "Item '" ++ nome ++ "' não estava na lista, mas foi adicionado" ++
             " com preço R$ " ++ doisDecimais preco ++
             ".\n💰 Total parcial: R$ " ++
             doisDecimais (somaCarrinho (estado.itens ++
               [(nome.toLower, ⟨nome, true, some preco⟩)])))) ∧
    (marcar_item_comprado (marcar_item_comprado ⟨[], true⟩ "peguei leite 4.50").1
        "peguei arroz 10,00").2 =
      "Item 'arroz' não estava na lista, mas foi adicionado com preço R$ 10.00.\n💰 Total parcial: R$ 14.50" := by
  constructor
  · intro e t nome p hex habs
    simp only [marcar_item_comprado, hex, habs]
  · with_unfolding_all rfl

set_option maxHeartbeats 1000000 in
/-- Claim C7, witness: marking "leite" at 4.50 on the empty session. -/
theorem C7_marcar_total_witness :
    marcar_item_comprado ⟨[], true⟩ "peguei leite 4.50" =
      (⟨[("leite", ⟨"leite", true, some ((9 : ℚ)/2)⟩)], true⟩,
       "Item 'leite' não estava na lista, mas foi adicionado com preço R$ 4.50.\n💰 Total parcial: R$ 4.50") := by
  with_unfolding_all
    exact C7_marcar_total.1 ⟨[], true⟩ "peguei leite 4.50" "leite" ((9 : ℚ)/2)
      (by with_unfolding_all rfl) rfl

/-- Claim C8, counterexample: Add of "Leite" stores "leite" as the item's
display name — the original casing is not preserved; only the lowercased
form is kept. -/
theorem C8_contraexemplo :
    (adicionar_item ⟨[], false⟩ "Leite").1.itens =
      [("leite", ⟨"leite", false, none⟩)] ∧ ("leite" : String) ≠ "Leite" := by
  exact ⟨by with_unfolding_all rfl, by decide⟩

/-- Claim C8 (amended): after a successful Add of n, the stored item's
display name equals the trimmed lowercased form of n (the same string as
the map key), with in_cart false and price null. -/
theorem C8_nome_normalizado (estado : EstadoUsuario) (n : String)
    (h1 : n.trim.toLower ≠ "") (h2 : dictGet (n.trim.toLower) estado.itens = none) :
    (adicionar_item estado n).1.itens =
      estado.itens ++ [(n.trim.toLower, ⟨n.trim.toLower, false, none⟩)] := by
  simp [adicionar_item, h1, h2]

/-- Claim C8, witness: adding "Leite" to the empty session. -/
theorem C8_nome_normalizado_witness :
    (adicionar_item ⟨[], false⟩ "Leite").1.itens =
      [("Leite".trim.toLower, ⟨"Leite".trim.toLower, false, none⟩)] := by
  with_unfolding_all
    exact C8_nome_normalizado ⟨[], false⟩ "Leite" (by with_unfolding_all decide) rfl

/-- Claim C9: every recoverable failure of the three store operations (blank
or duplicate name on Add; blank or absent name on Remove; any extraction
failure on MarkPurchased, whose guidance message is returned verbatim)
leaves the session state — items and shopping-mode flag — unchanged. -/
theorem C9_atomicidade :
    (∀ (estado : EstadoUsuario) (n : String),
        (n.trim.toLower = "" ∨ dictGet (n.trim.toLower) estado.itens ≠ none) →
        (adicionar_item estado n).1 = estado) ∧
    (∀ (estado : EstadoUsuario) (n : String),
        (n.trim.toLower = "" ∨ dictGet (n.trim.toLower) estado.itens = none) →
        (remover_item estado n).1 = estado) ∧
    (∀ (estado : EstadoUsuario) (texto msg : String),
        extrairItemPreco texto = Except.error msg →
        marcar_item_comprado estado texto = (estado, msg)) := by
  refine ⟨?_, ?_, ?_⟩
  · intro e n h
    by_cases hn : n.trim.toLower = ""
    · simp [adicionar_item, hn]
    · rcases h with h | h
      · exact absurd h hn
      · rcases hg : dictGet (n.trim.toLower) e.itens with _ | v
        · exact absurd hg h
        · simp [adicionar_item, hn, hg]
  · intro e n h
    by_cases hn : n.trim.toLower = ""
    · simp [remover_item, hn]
    · rcases h with h | h
      · exact absurd h hn
      · simp [remover_item, hn, h]
  · intro e t msg h
    simp only [marcar_item_comprado, h]

/-- Claim C9, witness: a blank Add, a Remove of an absent key, and a
MarkPurchased with no price each leave the empty session unchanged. -/
theorem C9_atomicidade_witness :
    (adicionar_item ⟨[], false⟩ " ").1 = (⟨[], false⟩ : EstadoUsuario) ∧
    (remover_item ⟨[], false⟩ "arroz").1 = (⟨[], false⟩ : EstadoUsuario) ∧
    marcar_item_comprado ⟨[], false⟩ "peguei leite" = (⟨[], false⟩, msgSemPreco) := by
  refine ⟨?_, ?_, ?_⟩
  · exact C9_atomicidade.1 ⟨[], false⟩ " " (Or.inl (by with_unfolding_all decide))
  · exact C9_atomicidade.2.1 ⟨[], false⟩ "arroz" (Or.inr rfl)
  · exact C9_atomicidade.2.2 ⟨[], false⟩ "peguei leite" msgSemPreco
      (by with_unfolding_all rfl)

/-- The in-place update that `marcar_item_comprado` performs on an existing
key leaves entries under other keys untouched. -/
theorem map_marcar_sem_chave (l : List (String × ItemLista)) (k : String)
    (p : ℚ) (h : dictGet k l = none) :
    (l.map fun par =>
      if par.1 = k then (par.1, (⟨par.2.nome, true, some p⟩ : ItemLista))
      else par) = l := by
  induction l with
  | nil => rfl
  | cons par resto ih =>
      by_cases hp : par.1 = k
      · simp [dictGet, hp] at h
      · simp only [dictGet, hp, if_false] at h
        simp [hp, ih h]

/-- Claim C10: marking the same item twice replaces the stored price with
the second amount (no accumulation), and the item contributes exactly the
second price once to the running total. -/
theorem C10_substituicao (estado : EstadoUsuario) (t1 t2 nome : String) (p1 p2 : ℚ)
    (h1 : extrairItemPreco t1 = Except.ok (nome, p1))
    (h2 : extrairItemPreco t2 = Except.ok (nome, p2))
    (habs : dictGet nome.toLower estado.itens = none) :
    ((marcar_item_comprado (marcar_item_comprado estado t1).1 t2).1).itens =
      estado.itens ++ [(nome.toLower, ⟨nome, true, some p2⟩)] ∧
    somaCarrinho ((marcar_item_comprado (marcar_item_comprado estado t1).1 t2).1).itens =
      somaCarrinho estado.itens + p2 := by
  have e1 : (marcar_item_comprado estado t1).1 =
      { estado with itens := estado.itens ++
          [(nome.toLower, ⟨nome, true, some p1⟩)] } := by
    simp only [marcar_item_comprado, h1, habs]
  have hga := dictGet_append_self estado.itens nome.toLower
    ⟨nome, true, some p1⟩ habs
  have e2 : ((marcar_item_comprado (marcar_item_comprado estado t1).1 t2).1).itens =
      estado.itens ++ [(nome.toLower, ⟨nome, true, some p2⟩)] := by
    rw [e1]
    simp only [marcar_item_comprado, h2]
    simp only [hga]
    rw [List.map_append, map_marcar_sem_chave _ _ _ habs]
    simp
  refine ⟨e2, ?_⟩
  rw [e2, somaCarrinho_append]
  simp [somaCarrinho]

set_option maxHeartbeats 1000000 in
/-- Claim C10, witness: marking "leite" at 3 and then at 7,25 on the empty
session leaves a single entry priced 7.25 and total 7.25. -/
theorem C10_substituicao_witness :
    ((marcar_item_comprado (marcar_item_comprado ⟨[], true⟩ "peguei leite 3").1
        "peguei leite 7,25").1).itens =
      [("leite", ⟨"leite", true, some ((29 : ℚ)/4)⟩)] ∧
    somaCarrinho ((marcar_item_comprado (marcar_item_comprado ⟨[], true⟩
        "peguei leite 3").1 "peguei leite 7,25").1).itens =
      somaCarrinho ([] : List (String × ItemLista)) + (29 : ℚ)/4 := by
  with_unfolding_all
    exact C10_substituicao ⟨[], true⟩ "peguei leite 3" "peguei leite 7,25" "leite"
      3 ((29 : ℚ)/4) (by with_unfolding_all rfl) (by with_unfolding_all rfl) rfl
